import Mathlib

/-!
Verification of the sleepAR voice-assistant pipeline (HTN-2025).

The repository snapshot contains the glasses-side Lens Studio scripts and the
backend documentation; the backend Python modules (speech.py, app.py,
data_types.py) are documented and invoked but absent, so those components are
modelled from the specification text, as marked on each definition.  The
WebUI socket client (the glasses-side onmessage handler) is present as source
and embedded directly.
-/

namespace SleepAR

/-! ## WebUI glasses-side socket client (embedded from the Lens Studio script) -/

/-- Mutable state of the WebUI socket client script besides the socket itself:
the captured web texture control references. -/
structure ClientState where
  textureWeb : Option String
  webViewControl : Option String
deriving Repr, DecidableEq

/-- A parsed inbound text-frame message: the fields the onmessage handler
reads (data.action, data.data.song_title, data.data.video_url). -/
structure InboundMsg where
  action : String
  songTitle : String
  videoUrl : String
deriving Repr, DecidableEq

/-- Result of one run of the text-frame branch of socket.onmessage: the
client state afterwards, the log lines printed, and any outbound socket
messages emitted. -/
structure HandlerResult where
  state : ClientState
  logs : List String
  outbound : List String
deriving Repr, DecidableEq

/-- The text-frame branch of socket.onmessage in the WebUI client script:
it logs receipt and the raw text, then dispatches on the action field.
Only play_song and play_video have action-specific branches; every other
action falls to the final else, which only logs.  No branch sends on the
socket or assigns any script variable. -/
def onTextFrame (st : ClientState) (text : String) (m : InboundMsg) : HandlerResult :=
  let baseLogs := ["WebUI Socket message received",
                   "Received text frame message: " ++ text]
  if m.action = "play_song" then
    { state := st, logs := baseLogs ++ ["Playing song: " ++ m.songTitle], outbound := [] }
  else if m.action = "play_video" then
    { state := st, logs := baseLogs ++ ["Playing video: " ++ m.videoUrl], outbound := [] }
  else
    { state := st,
      logs := baseLogs ++ ["WebUI socket has no need to handle this action: " ++ m.action],
      outbound := [] }

/-! ## InterruptionMonitor cue set -/

/-- Modelled from the spec: the InterruptionMonitor lives in backend/speech.py,
which is not in the snapshot.  Its fixed cue-word set, per the spec and the
README list of interruption keywords. -/
def interruptionCues : List String :=
  ["sorry", "stop", "wait", "pause", "hold", "cancel", "nevermind", "enough", "hey", "hi"]

/-- Modelled from the spec: the monitor matches the in-progress transcript
prefix against the cue set; a transcript (as a word list) raises the
cancellation signal exactly when its first word is a cue word. -/
def raisesCancellation (transcript : List String) : Bool :=
  match transcript with
  | [] => false
  | w :: _ => interruptionCues.contains w

/-! ## RequestClassifier -/

/-- Response categories assigned to a completed utterance. -/
inductive ResponseCategory where
  | Story
  | Explanation
  | Conversation
  | Action
deriving Repr, DecidableEq

/-- Modelled from the spec: the four caller-configurable token budgets of
backend/speech.py, absent from the snapshot. -/
structure ClassifierConfig where
  storyTokens : Nat
  explanationTokens : Nat
  conversationTokens : Nat
  actionTokens : Nat
deriving Repr, DecidableEq

/-- The documented command-line defaults: 500 / 300 / 150 / 50. -/
def defaultClassifierConfig : ClassifierConfig :=
  { storyTokens := 500, explanationTokens := 300,
    conversationTokens := 150, actionTokens := 50 }

/-- Modelled from the spec: story trigger phrases. -/
def storyTriggers : List (List String) :=
  [["tell", "me", "a", "story"], ["once", "upon", "a", "time"]]

/-- Modelled from the spec: explanation trigger phrases. -/
def explanationTriggers : List (List String) :=
  [["explain"], ["what", "is"], ["how", "does"], ["tell", "me", "about"]]

/-- The word list t starts with the phrase p. -/
def startsWithPhrase (p t : List String) : Bool :=
  match p, t with
  | [], _ => true
  | _ :: _, [] => false
  | w :: ps, x :: ts => w == x && startsWithPhrase ps ts

/-- The phrase p occurs contiguously somewhere inside the word list t. -/
def phraseOccursIn (p t : List String) : Bool :=
  match t with
  | [] => startsWithPhrase p []
  | _ :: ts => startsWithPhrase p t || phraseOccursIn p ts

/-- A transcript (word list) contains a trigger phrase when that phrase
occurs contiguously inside it. -/
def containsTrigger (triggers : List (List String)) (t : List String) : Bool :=
  triggers.any (fun p => phraseOccursIn p t)

/-- The transcript begins with one of the given command verbs. -/
def beginsWithVerb (verbs : List String) (t : List String) : Bool :=
  match t with
  | [] => false
  | w :: _ => verbs.contains w

/-- Modelled from the spec: the keyword/pattern request classifier of
backend/speech.py, absent from the snapshot.  Checks run in the order the
spec lists them: story triggers, then explanation triggers, then a leading
imperative command verb (the set of verbs, only exemplified by the spec, is
a parameter), and everything else is Conversation.  Pure function of its
arguments. -/
def classifyRequest (verbs : List String) (cfg : ClassifierConfig)
    (t : List String) : ResponseCategory × Nat :=
  if containsTrigger storyTriggers t then
    (ResponseCategory.Story, cfg.storyTokens)
  else if containsTrigger explanationTriggers t then
    (ResponseCategory.Explanation, cfg.explanationTokens)
  else if beginsWithVerb verbs t then
    (ResponseCategory.Action, cfg.actionTokens)
  else
    (ResponseCategory.Conversation, cfg.conversationTokens)

/-! ## PlaybackController -/

/-- The lifecycle states of a spoken-response session. -/
inductive PlaybackState where
  | Pending
  | Speaking
  | Cancelled
  | Completed
deriving Repr, DecidableEq

/-- Modelled from the spec: one in-flight spoken response of the
PlaybackController in backend/speech.py, absent from the snapshot.  The
buffer holds the remaining unplayed synthesized audio chunks. -/
structure PlaybackSession where
  id : Nat
  state : PlaybackState
  buffer : List Nat
deriving Repr, DecidableEq

/-- Outgoing action kinds of the system. -/
inductive ActionType where
  | tts
  | playSong
  | playVideo
  | createVisual
  | changeMode
  | acknowledge
  | error
  | configSend
deriving Repr, DecidableEq

/-- Modelled from the spec: the controller state, holding every session it
has seen plus the actions it has emitted, in order. -/
structure ControllerState where
  sessions : List PlaybackSession
  outbox : List ActionType
deriving Repr, DecidableEq

/-- Events the PlaybackController consumes. -/
inductive PlaybackEvent where
  | submit (sid : Nat) (audio : List Nat)
  | beginSpeaking (sid : Nat)
  | cancelSignal
  | finishPlayback (sid : Nat)
deriving Repr, DecidableEq

/-- Number of sessions currently in state Speaking. -/
def speakingCount (l : List PlaybackSession) : Nat :=
  l.countP (fun s => s.state == PlaybackState.Speaking)

/-- Force every Speaking session to Cancelled, discarding its remaining
unplayed audio. -/
def cancelSpeaking (l : List PlaybackSession) : List PlaybackSession :=
  l.map (fun s =>
    if s.state == PlaybackState.Speaking then
      { s with state := PlaybackState.Cancelled, buffer := [] }
    else s)

/-- Move the first Pending session with the given id into Speaking. -/
def promoteToSpeaking (sid : Nat) : List PlaybackSession → List PlaybackSession
  | [] => []
  | s :: rest =>
    if s.id == sid && s.state == PlaybackState.Pending then
      { s with state := PlaybackState.Speaking } :: rest
    else s :: promoteToSpeaking sid rest

/-- Move the first Speaking session with the given id into Completed (all
its audio has played). -/
def completeSpeaking (sid : Nat) : List PlaybackSession → List PlaybackSession
  | [] => []
  | s :: rest =>
    if s.id == sid && s.state == PlaybackState.Speaking then
      { s with state := PlaybackState.Completed, buffer := [] } :: rest
    else s :: completeSpeaking sid rest

/-- Modelled from the spec: one serialized transition step of the
PlaybackController.  submit registers a Pending session with its synthesized
audio; beginSpeaking first forces any active Speaking session to Cancelled
(emitting the short acknowledgment the spec requires on Cancelled) and then
promotes the requested Pending session to Speaking; cancelSignal, raised by
the InterruptionMonitor, cancels the Speaking session, discards its buffer
and emits an acknowledgment, and is a no-op when nothing is Speaking;
finishPlayback completes the Speaking session. -/
def stepPlayback (st : ControllerState) (e : PlaybackEvent) : ControllerState :=
  match e with
  | PlaybackEvent.submit sid audio =>
    { st with sessions :=
        st.sessions ++ [{ id := sid, state := PlaybackState.Pending, buffer := audio }] }
  | PlaybackEvent.beginSpeaking sid =>
    { sessions := promoteToSpeaking sid (cancelSpeaking st.sessions),
      outbox :=
        if speakingCount st.sessions == 0 then st.outbox
        else st.outbox ++ [ActionType.acknowledge] }
  | PlaybackEvent.cancelSignal =>
    { sessions := cancelSpeaking st.sessions,
      outbox :=
        if speakingCount st.sessions == 0 then st.outbox
        else st.outbox ++ [ActionType.acknowledge] }
  | PlaybackEvent.finishPlayback sid =>
    { st with sessions := completeSpeaking sid st.sessions }

/-- The controller before any event: no sessions, nothing emitted. -/
def initController : ControllerState :=
  { sessions := [], outbox := [] }

/-- The controller state after consuming a whole event sequence. -/
def runPlayback (events : List PlaybackEvent) : ControllerState :=
  events.foldl stepPlayback initController

/-! ## SessionStateMachine and ActionDispatcher -/

/-- Modelled from the spec: the active Config of the session — voice
selection, volume, caption flag. -/
structure Config where
  voiceType : String
  volume : Nat
  closedCaptions : Bool
deriving Repr, DecidableEq

/-- Modelled from the spec: a config_send event carries one or more of the
three config parameters; absent fields leave the active value unchanged. -/
structure ConfigUpdate where
  voiceType : Option String
  volume : Option Nat
  closedCaptions : Option Bool
deriving Repr, DecidableEq

/-- Apply a config_send update to the active Config atomically. -/
def applyUpdate (c : Config) (u : ConfigUpdate) : Config :=
  { voiceType := u.voiceType.getD c.voiceType,
    volume := u.volume.getD c.volume,
    closedCaptions := u.closedCaptions.getD c.closedCaptions }

/-- An entry of the bounded command history: a completed command (id and
status) or a finished story/visual (id). -/
inductive HistoryEntry where
  | command (cid : String) (status : String)
  | story (sid : String)
deriving Repr, DecidableEq

/-- Modelled from the spec: append to the bounded command history, keeping
only the last n entries — when the append would exceed n, the oldest entries
are evicted first. -/
def appendHistory (n : Nat) (h : List HistoryEntry) (e : HistoryEntry) : List HistoryEntry :=
  let h2 := h ++ [e]
  if n < h2.length then h2.drop (h2.length - n) else h2

/-- Typed outgoing actions the dispatcher constructs (only the fields the
claims concern are carried). -/
inductive OutAction where
  | tts (speech : String) (voiceType : String) (volume : Nat) (closedCaptions : Bool)
  | acknowledge (message : String)
deriving Repr, DecidableEq

/-- Events the SessionStateMachine consumes. -/
inductive SessionEvent where
  | configSend (u : ConfigUpdate)
  | speak (text : String)
  | doneCommand (cid : String) (status : String)
  | doneStory (sid : String)
deriving Repr, DecidableEq

/-- Modelled from the spec: the process-wide session state — active Config,
bounded command history with its configured maximum, and the ordered list of
actions constructed so far. -/
structure SessionState where
  config : Config
  maxHistory : Nat
  history : List HistoryEntry
  actions : List OutAction
deriving Repr, DecidableEq

/-- A tts Action is constructed from the current Config merged with the
generator-provided speech text. -/
def mkTts (c : Config) (text : String) : OutAction :=
  OutAction.tts text c.voiceType c.volume c.closedCaptions

/-- Modelled from the spec: one step of the SessionStateMachine.  A
config_send mutates the active Config; a generated speech text constructs a
tts Action from the current Config; completion events are appended to the
bounded command history. -/
def stepSession (st : SessionState) (e : SessionEvent) : SessionState :=
  match e with
  | SessionEvent.configSend u => { st with config := applyUpdate st.config u }
  | SessionEvent.speak text => { st with actions := st.actions ++ [mkTts st.config text] }
  | SessionEvent.doneCommand cid status =>
    { st with history := appendHistory st.maxHistory st.history (HistoryEntry.command cid status) }
  | SessionEvent.doneStory sid =>
    { st with history := appendHistory st.maxHistory st.history (HistoryEntry.story sid) }

/-- The session state after consuming a whole event sequence. -/
def runSession (st : SessionState) (events : List SessionEvent) : SessionState :=
  events.foldl stepSession st

/-- Recognizer for config_send events. -/
def isConfigSend (e : SessionEvent) : Bool :=
  match e with
  | SessionEvent.configSend _ => true
  | _ => false

/-! ## VoiceActivitySegmenter -/

deriving instance DecidableEq for Except

/-- An audio frame: its measured energy and the outcome of the model-based
voice/non-voice classifier on it, which can fail. -/
structure AudioFrame where
  energy : Nat
  vadResult : Except Unit Bool
deriving Repr, DecidableEq

/-- Modelled from the spec: the segmenter parameters of backend/speech.py,
absent from the snapshot — energy threshold, consecutive speech frames to
recognize speech-start, silence frames to recognize speech-end, pre-buffer
window length, and the minimum utterance length below which a burst is
discarded as noise. -/
structure VadParams where
  energyThreshold : Nat
  startFrames : Nat
  silenceFrames : Nat
  preBufferFrames : Nat
  minUtteranceFrames : Nat
deriving Repr, DecidableEq

/-- The combined frame decision before error handling: the model classifier
result combined with the energy threshold comparison.  Fails when the
classifier fails. -/
def classifyFrame (p : VadParams) (f : AudioFrame) : Except Unit Bool :=
  match f.vadResult with
  | Except.error e => Except.error e
  | Except.ok voiced => Except.ok (voiced && decide (p.energyThreshold < f.energy))

/-- Modelled from the spec: the fail-open frame decision — a classifier
error on a frame is treated as silence for that frame rather than
propagated. -/
def frameIsSpeech (p : VadParams) (f : AudioFrame) : Bool :=
  match classifyFrame p f with
  | Except.error _ => false
  | Except.ok b => b

/-- A completed utterance: the energies of its frames, pre-buffer included. -/
def Utterance := List Nat

/-- Modelled from the spec: the segmenter state — the rolling pre-buffer of
recent frame energies, the consecutive-speech counter while idle, whether an
utterance is open, its accumulated frames, and the consecutive-silence
counter while speaking. -/
structure SegState where
  recent : List Nat
  speechRun : Nat
  inSpeech : Bool
  current : List Nat
  silenceRun : Nat
deriving Repr, DecidableEq

/-- The segmenter before any frame. -/
def initSeg : SegState :=
  { recent := [], speechRun := 0, inSpeech := false, current := [], silenceRun := 0 }

/-- Keep only the last n elements of a list. -/
def keepLast (n : Nat) (l : List Nat) : List Nat :=
  l.drop (l.length - n)

/-- Modelled from the spec: one segmenter step on a frame of the given
energy whose speech/silence decision is already made.  While idle, speech
frames accumulate until startFrames consecutive ones open an utterance that
retroactively includes the pre-buffer window; while speaking, silence frames
accumulate until silenceFrames consecutive ones close the utterance, which
is emitted only when it reaches minUtteranceFrames. -/
def stepCore (p : VadParams) (st : SegState) (energy : Nat) (isSpeech : Bool) :
    SegState × List Utterance :=
  if st.inSpeech then
    if isSpeech then
      ({ st with current := st.current ++ [energy], silenceRun := 0 }, [])
    else
      let run := st.silenceRun + 1
      if p.silenceFrames ≤ run then
        let finished := st.current ++ [energy]
        ({ initSeg with recent := keepLast p.preBufferFrames (st.recent ++ [energy]) },
         if p.minUtteranceFrames ≤ finished.length then [finished] else [])
      else
        ({ st with current := st.current ++ [energy], silenceRun := run }, [])
  else
    let recent2 := keepLast p.preBufferFrames (st.recent ++ [energy])
    if isSpeech then
      let run := st.speechRun + 1
      if p.startFrames ≤ run then
        ({ recent := recent2, speechRun := 0, inSpeech := true,
           current := keepLast p.preBufferFrames (st.recent ++ [energy]), silenceRun := 0 }, [])
      else
        ({ st with recent := recent2, speechRun := run }, [])
    else
      ({ st with recent := recent2, speechRun := 0 }, [])

/-- One segmenter step on a raw frame: decide speech/silence fail-open, then
advance the state machine. -/
def stepSeg (p : VadParams) (st : SegState) (f : AudioFrame) : SegState × List Utterance :=
  stepCore p st f.energy (frameIsSpeech p f)

/-- Run the segmenter over a frame sequence, collecting every emitted
utterance in order. -/
def runSegFrom (p : VadParams) (st : SegState) : List AudioFrame → List Utterance
  | [] => []
  | f :: rest =>
    let r := stepSeg p st f
    r.2 ++ runSegFrom p r.1 rest

/-- Run the segmenter from its initial state. -/
def runSegmenter (p : VadParams) (frames : List AudioFrame) : List Utterance :=
  runSegFrom p initSeg frames

/-- Replace a frame whose classifier failed by the same frame read as
silence (classifier answer false). -/
def silenceErrors (f : AudioFrame) : AudioFrame :=
  match f.vadResult with
  | Except.error _ => { f with vadResult := Except.ok false }
  | Except.ok _ => f

/-! ## Theorems -/

/-- C10: every text frame the WebUI glasses-side socket client receives
leaves the client state unchanged and sends nothing outbound; only the
action values play_song and play_video get action-specific handling (their
specific log lines), and a message with any other parsed action value is
only logged as unhandled. -/
theorem webui_client_handles_only_song_and_video (st : ClientState) (text : String)
    (m : InboundMsg) :
    (onTextFrame st text m).state = st ∧
    (onTextFrame st text m).outbound = [] ∧
    (m.action ≠ "play_song" → m.action ≠ "play_video" →
      (onTextFrame st text m).logs =
        ["WebUI Socket message received", "Received text frame message: " ++ text,
         "WebUI socket has no need to handle this action: " ++ m.action]) ∧
    (m.action = "play_song" →
      (onTextFrame st text m).logs =
        ["WebUI Socket message received", "Received text frame message: " ++ text,
         "Playing song: " ++ m.songTitle]) ∧
    (m.action = "play_video" →
      (onTextFrame st text m).logs =
        ["WebUI Socket message received", "Received text frame message: " ++ text,
         "Playing video: " ++ m.videoUrl]) := by
  by_cases h1 : m.action = "play_song"
  · refine ⟨by simp [onTextFrame, h1], by simp [onTextFrame, h1], ?_, ?_, ?_⟩
    · intro hc
      exact absurd h1 hc
    · intro _
      simp [onTextFrame, h1]
    · intro hv
      rw [h1] at hv
      exact absurd hv (by decide)
  · by_cases h2 : m.action = "play_video"
    · refine ⟨by simp [onTextFrame, h1, h2], by simp [onTextFrame, h1, h2], ?_, ?_, ?_⟩
      · intro _ hc
        exact absurd h2 hc
      · intro hs
        exact absurd hs h1
      · intro _
        simp [onTextFrame, h1, h2]
    · refine ⟨by simp [onTextFrame, h1, h2], by simp [onTextFrame, h1, h2], ?_, ?_, ?_⟩
      · intro _ _
        simp [onTextFrame, h1, h2]
      · intro hs
        exact absurd hs h1
      · intro hv
        exact absurd hv h2

/-- Witness for C10 at a concrete tts-action message. -/
theorem webui_client_handles_only_song_and_video_witness :
    (onTextFrame ⟨none, none⟩ "raw" ⟨"tts", "s", "v"⟩).state = ⟨none, none⟩ ∧
    (onTextFrame ⟨none, none⟩ "raw" ⟨"tts", "s", "v"⟩).outbound = [] ∧
    (onTextFrame ⟨none, none⟩ "raw" ⟨"tts", "s", "v"⟩).logs =
      ["WebUI Socket message received", "Received text frame message: raw",
       "WebUI socket has no need to handle this action: tts"] := by
  have h := webui_client_handles_only_song_and_video ⟨none, none⟩ "raw" ⟨"tts", "s", "v"⟩
  exact ⟨h.1, h.2.1, h.2.2.1 (by decide) (by decide)⟩

/-- C4: the interruption cue set is exactly the ten listed words — an
in-progress transcript raises the cancellation signal exactly when its first
word is one of the ten, and an empty transcript raises none. -/
theorem interruption_cue_set_exact (w : String) (rest : List String) :
    raisesCancellation [] = false ∧
    (raisesCancellation (w :: rest) = true ↔
      w = "sorry" ∨ w = "stop" ∨ w = "wait" ∨ w = "pause" ∨ w = "hold" ∨
      w = "cancel" ∨ w = "nevermind" ∨ w = "enough" ∨ w = "hey" ∨ w = "hi") := by
  constructor
  · rfl
  · show (interruptionCues.contains w = true) ↔ _
    simp only [interruptionCues, List.contains_cons, List.contains_nil,
      Bool.or_eq_true, beq_iff_eq, Bool.false_eq_true, or_false]

/-- C3: with the default budgets, the request classifier maps a transcript
containing a story trigger to Story with budget 500; otherwise one
containing an explanation trigger to Explanation with budget 300; otherwise
one beginning with a command verb to Action with budget 50; and every other
transcript to Conversation with budget 150 — exactly one of the four. -/
theorem classifier_categories_and_default_budgets (verbs : List String) (t : List String) :
    (containsTrigger storyTriggers t = true →
      classifyRequest verbs defaultClassifierConfig t = (ResponseCategory.Story, 500)) ∧
    (containsTrigger storyTriggers t = false →
      containsTrigger explanationTriggers t = true →
      classifyRequest verbs defaultClassifierConfig t = (ResponseCategory.Explanation, 300)) ∧
    (containsTrigger storyTriggers t = false →
      containsTrigger explanationTriggers t = false →
      beginsWithVerb verbs t = true →
      classifyRequest verbs defaultClassifierConfig t = (ResponseCategory.Action, 50)) ∧
    (containsTrigger storyTriggers t = false →
      containsTrigger explanationTriggers t = false →
      beginsWithVerb verbs t = false →
      classifyRequest verbs defaultClassifierConfig t = (ResponseCategory.Conversation, 150)) := by
  refine ⟨?_, ?_, ?_, ?_⟩
  · intro h1
    simp [classifyRequest, defaultClassifierConfig, h1]
  · intro h1 h2
    simp [classifyRequest, defaultClassifierConfig, h1, h2]
  · intro h1 h2 h3
    simp [classifyRequest, defaultClassifierConfig, h1, h2, h3]
  · intro h1 h2 h3
    simp [classifyRequest, defaultClassifierConfig, h1, h2, h3]

/-- Witness for C3 on the scenario transcript, a story request. -/
theorem classifier_categories_and_default_budgets_witness :
    classifyRequest ["open", "play", "show"] defaultClassifierConfig
      ["tell", "me", "a", "story", "about", "the", "ocean"] =
      (ResponseCategory.Story, 500) :=
  (classifier_categories_and_default_budgets ["open", "play", "show"]
    ["tell", "me", "a", "story", "about", "the", "ocean"]).1 (by decide)

/-- C6: the request classifier is a pure function — two invocations on the
identical transcript with the identical configuration (budgets and verb set)
return the identical category and budget. -/
theorem classifier_deterministic (verbs1 verbs2 : List String)
    (cfg1 cfg2 : ClassifierConfig) (t1 t2 : List String)
    (hv : verbs1 = verbs2) (hc : cfg1 = cfg2) (ht : t1 = t2) :
    classifyRequest verbs1 cfg1 t1 = classifyRequest verbs2 cfg2 t2 := by
  subst hv
  subst hc
  subst ht
  rfl

/-- Witness for C6 at a concrete repeated invocation. -/
theorem classifier_deterministic_witness :
    classifyRequest ["open"] defaultClassifierConfig ["explain", "sleep"] =
      classifyRequest ["open"] defaultClassifierConfig ["explain", "sleep"] :=
  classifier_deterministic ["open"] ["open"] defaultClassifierConfig defaultClassifierConfig
    ["explain", "sleep"] ["explain", "sleep"] rfl rfl rfl

theorem appendHistory_length_le (n : Nat) (h : List HistoryEntry) (e : HistoryEntry)
    (hle : h.length ≤ n) : (appendHistory n h e).length ≤ n := by
  unfold appendHistory
  have hlen : (h ++ [e]).length = h.length + 1 := by simp
  by_cases hc : n < (h ++ [e]).length
  · rw [if_pos hc, List.length_drop]
    omega
  · rw [if_neg hc]
    omega

theorem stepSession_maxHistory (st : SessionState) (e : SessionEvent) :
    (stepSession st e).maxHistory = st.maxHistory := by
  cases e <;> rfl

theorem runSession_maxHistory (events : List SessionEvent) (st : SessionState) :
    (runSession st events).maxHistory = st.maxHistory := by
  induction events generalizing st with
  | nil => rfl
  | cons e rest ih =>
    show (runSession (stepSession st e) rest).maxHistory = st.maxHistory
    rw [ih, stepSession_maxHistory]

theorem stepSession_history_le (st : SessionState) (e : SessionEvent)
    (hle : st.history.length ≤ st.maxHistory) :
    (stepSession st e).history.length ≤ st.maxHistory := by
  cases e with
  | configSend u => exact hle
  | speak text => exact hle
  | doneCommand cid status => exact appendHistory_length_le _ _ _ hle
  | doneStory sid => exact appendHistory_length_le _ _ _ hle

theorem runSession_history_le (events : List SessionEvent) (st : SessionState)
    (hle : st.history.length ≤ st.maxHistory) :
    (runSession st events).history.length ≤ st.maxHistory := by
  induction events generalizing st with
  | nil => exact hle
  | cons e rest ih =>
    show (runSession (stepSession st e) rest).history.length ≤ st.maxHistory
    have h2 := ih (stepSession st e) (by
      rw [stepSession_maxHistory]
      exact stepSession_history_le st e hle)
    rwa [stepSession_maxHistory] at h2

theorem appendHistory_evicts_oldest (n : Nat) (h : List HistoryEntry) (e : HistoryEntry)
    (hlen : h.length = n) (hpos : 0 < n) :
    appendHistory n h e = h.drop 1 ++ [e] := by
  cases h with
  | nil => simp at hlen; omega
  | cons x hs =>
    unfold appendHistory
    have hc : n < (x :: hs ++ [e]).length := by simp at hlen ⊢; omega
    simp only [hc, if_pos]
    have hd : (x :: hs ++ [e]).length - n = 1 := by simp at hlen ⊢; omega
    rw [hd]
    rfl

/-- C9: after any sequence of session events (completion events included)
from a state whose history respects its configured maximum, the history
length still never exceeds that maximum, the maximum itself is unchanged,
and an append to a full nonempty history evicts exactly the oldest entry. -/
theorem command_history_bounded (st : SessionState) (events : List SessionEvent)
    (h0 : st.history.length ≤ st.maxHistory) :
    (runSession st events).maxHistory = st.maxHistory ∧
    (runSession st events).history.length ≤ st.maxHistory ∧
    (∀ n h e, h.length = n → 0 < n → appendHistory n h e = h.drop 1 ++ [e]) := by
  refine ⟨runSession_maxHistory events st, runSession_history_le events st h0, ?_⟩
  intro n h e hlen hpos
  exact appendHistory_evicts_oldest n h e hlen hpos

/-- Witness for C9: a two-entry maximum overflowing on the third append. -/
theorem command_history_bounded_witness :
    (runSession
      { config := { voiceType := "Indigo", volume := 1, closedCaptions := false },
        maxHistory := 2, history := [], actions := [] }
      [SessionEvent.doneCommand "cmd_001" "completed",
       SessionEvent.doneCommand "cmd_002" "completed",
       SessionEvent.doneStory "story_001"]).maxHistory = 2 ∧
    (runSession
      { config := { voiceType := "Indigo", volume := 1, closedCaptions := false },
        maxHistory := 2, history := [], actions := [] }
      [SessionEvent.doneCommand "cmd_001" "completed",
       SessionEvent.doneCommand "cmd_002" "completed",
       SessionEvent.doneStory "story_001"]).history.length ≤ 2 ∧
    (∀ n h e, h.length = n → 0 < n → appendHistory n h e = h.drop 1 ++ [e]) :=
  command_history_bounded
    { config := { voiceType := "Indigo", volume := 1, closedCaptions := false },
      maxHistory := 2, history := [], actions := [] }
    [SessionEvent.doneCommand "cmd_001" "completed",
     SessionEvent.doneCommand "cmd_002" "completed",
     SessionEvent.doneStory "story_001"]
    (by decide)

theorem runSession_config_no_update (mid : List SessionEvent) (st : SessionState)
    (hmid : ∀ e ∈ mid, isConfigSend e = false) :
    (runSession st mid).config = st.config := by
  induction mid generalizing st with
  | nil => rfl
  | cons e rest ih =>
    show (runSession (stepSession st e) rest).config = st.config
    have he : isConfigSend e = false := hmid e (List.mem_cons_self e rest)
    have hrest : ∀ x ∈ rest, isConfigSend x = false :=
      fun x hx => hmid x (List.mem_cons_of_mem e hx)
    rw [ih (stepSession st e) hrest]
    cases e with
    | configSend u => simp [isConfigSend] at he
    | speak text => rfl
    | doneCommand cid status => rfl
    | doneStory sid => rfl

/-- C5: after a config_send update, the next tts Action constructed carries
the updated voice, volume and captions values — and this holds across any
stretch of further events containing no other config update, so every tts
constructed in that stretch uses the most recently applied Config. -/
theorem config_roundtrip_to_tts (st : SessionState) (u : ConfigUpdate)
    (mid : List SessionEvent) (text : String)
    (hmid : ∀ e ∈ mid, isConfigSend e = false) :
    (runSession (stepSession st (SessionEvent.configSend u)) mid).config =
      applyUpdate st.config u ∧
    (stepSession (runSession (stepSession st (SessionEvent.configSend u)) mid)
        (SessionEvent.speak text)).actions =
      (runSession (stepSession st (SessionEvent.configSend u)) mid).actions ++
        [OutAction.tts text (applyUpdate st.config u).voiceType
          (applyUpdate st.config u).volume (applyUpdate st.config u).closedCaptions] := by
  have hconf : (runSession (stepSession st (SessionEvent.configSend u)) mid).config =
      applyUpdate st.config u := by
    rw [runSession_config_no_update mid _ hmid]
    rfl
  refine ⟨hconf, ?_⟩
  show (runSession (stepSession st (SessionEvent.configSend u)) mid).actions ++
      [mkTts (runSession (stepSession st (SessionEvent.configSend u)) mid).config text] = _
  rw [hconf]
  rfl

/-- Witness for C5: a voice, volume and captions update followed by an
unrelated completion event and then a tts construction. -/
theorem config_roundtrip_to_tts_witness :
    (runSession
        (stepSession
          { config := { voiceType := "Indigo", volume := 10, closedCaptions := false },
            maxHistory := 10, history := [], actions := [] }
          (SessionEvent.configSend
            { voiceType := some "Sammy-PlayAI", volume := some 8, closedCaptions := some true }))
        [SessionEvent.doneCommand "cmd_001" "completed"]).config =
      applyUpdate { voiceType := "Indigo", volume := 10, closedCaptions := false }
        { voiceType := some "Sammy-PlayAI", volume := some 8, closedCaptions := some true } ∧
    (stepSession
        (runSession
          (stepSession
            { config := { voiceType := "Indigo", volume := 10, closedCaptions := false },
              maxHistory := 10, history := [], actions := [] }
            (SessionEvent.configSend
              { voiceType := some "Sammy-PlayAI", volume := some 8, closedCaptions := some true }))
          [SessionEvent.doneCommand "cmd_001" "completed"])
        (SessionEvent.speak "good night")).actions =
      (runSession
          (stepSession
            { config := { voiceType := "Indigo", volume := 10, closedCaptions := false },
              maxHistory := 10, history := [], actions := [] }
            (SessionEvent.configSend
              { voiceType := some "Sammy-PlayAI", volume := some 8, closedCaptions := some true }))
          [SessionEvent.doneCommand "cmd_001" "completed"]).actions ++
        [OutAction.tts "good night"
          (applyUpdate { voiceType := "Indigo", volume := 10, closedCaptions := false }
            { voiceType := some "Sammy-PlayAI", volume := some 8,
              closedCaptions := some true }).voiceType
          (applyUpdate { voiceType := "Indigo", volume := 10, closedCaptions := false }
            { voiceType := some "Sammy-PlayAI", volume := some 8,
              closedCaptions := some true }).volume
          (applyUpdate { voiceType := "Indigo", volume := 10, closedCaptions := false }
            { voiceType := some "Sammy-PlayAI", volume := some 8,
              closedCaptions := some true }).closedCaptions] :=
  config_roundtrip_to_tts
    { config := { voiceType := "Indigo", volume := 10, closedCaptions := false },
      maxHistory := 10, history := [], actions := [] }
    { voiceType := some "Sammy-PlayAI", volume := some 8, closedCaptions := some true }
    [SessionEvent.doneCommand "cmd_001" "completed"]
    "good night"
    (by decide)

theorem frameIsSpeech_of_low_energy (p : VadParams) (f : AudioFrame)
    (hf : f.energy ≤ p.energyThreshold) : frameIsSpeech p f = false := by
  unfold frameIsSpeech classifyFrame
  cases hv : f.vadResult with
  | error e => rfl
  | ok voiced =>
    have hd : decide (p.energyThreshold < f.energy) = false := by
      simp
      omega
    simp [hd]

theorem stepCore_idle_silent (p : VadParams) (st : SegState) (energy : Nat)
    (hst : st.inSpeech = false) :
    stepCore p st energy false =
      ({ st with
          recent := keepLast p.preBufferFrames (st.recent ++ [energy]),
          speechRun := 0 }, []) := by
  unfold stepCore
  rw [hst]
  simp

theorem runSegFrom_all_silent (p : VadParams) (frames : List AudioFrame) :
    ∀ st, st.inSpeech = false → (∀ f ∈ frames, frameIsSpeech p f = false) →
      runSegFrom p st frames = [] := by
  induction frames with
  | nil =>
    intro st _ _
    rfl
  | cons f rest ih =>
    intro st hst hall
    have hf : frameIsSpeech p f = false := hall f (List.mem_cons_self f rest)
    show (stepSeg p st f).2 ++ runSegFrom p (stepSeg p st f).1 rest = []
    have hstep : stepSeg p st f =
        ({ st with
            recent := keepLast p.preBufferFrames (st.recent ++ [f.energy]),
            speechRun := 0 }, []) := by
      unfold stepSeg
      rw [hf]
      exact stepCore_idle_silent p st f.energy hst
    rw [hstep]
    have hrest : ∀ g ∈ rest, frameIsSpeech p g = false :=
      fun g hg => hall g (List.mem_cons_of_mem f hg)
    have h2 := ih ({ st with
        recent := keepLast p.preBufferFrames (st.recent ++ [f.energy]),
        speechRun := 0 }) hst hrest
    simpa using h2

/-- C7: for every frame sequence in which no frame energy exceeds the
configured threshold, the segmenter emits zero utterances. -/
theorem silent_stream_emits_no_utterances (p : VadParams) (frames : List AudioFrame)
    (hq : ∀ f ∈ frames, f.energy ≤ p.energyThreshold) :
    runSegmenter p frames = [] := by
  unfold runSegmenter
  exact runSegFrom_all_silent p frames initSeg rfl
    (fun f hf => frameIsSpeech_of_low_energy p f (hq f hf))

/-- Witness for C7: two below-threshold frames (one with a failing
classifier) yield no utterance. -/
theorem silent_stream_emits_no_utterances_witness :
    runSegmenter { energyThreshold := 100, startFrames := 3, silenceFrames := 5,
                   preBufferFrames := 2, minUtteranceFrames := 4 }
      [{ energy := 50, vadResult := Except.ok true },
       { energy := 10, vadResult := Except.error () }] = [] :=
  silent_stream_emits_no_utterances
    { energyThreshold := 100, startFrames := 3, silenceFrames := 5,
      preBufferFrames := 2, minUtteranceFrames := 4 }
    [{ energy := 50, vadResult := Except.ok true },
     { energy := 10, vadResult := Except.error () }]
    (by decide)

theorem silenceErrors_energy (f : AudioFrame) : (silenceErrors f).energy = f.energy := by
  obtain ⟨en, vr⟩ := f
  cases vr <;> rfl

theorem frameIsSpeech_silenceErrors (p : VadParams) (f : AudioFrame) :
    frameIsSpeech p (silenceErrors f) = frameIsSpeech p f := by
  obtain ⟨en, vr⟩ := f
  cases vr <;> rfl

theorem stepSeg_silenceErrors (p : VadParams) (st : SegState) (f : AudioFrame) :
    stepSeg p st (silenceErrors f) = stepSeg p st f := by
  unfold stepSeg
  rw [frameIsSpeech_silenceErrors, silenceErrors_energy]

theorem runSegFrom_silenceErrors (p : VadParams) (frames : List AudioFrame) :
    ∀ st, runSegFrom p st (frames.map silenceErrors) = runSegFrom p st frames := by
  induction frames with
  | nil =>
    intro st
    rfl
  | cons f rest ih =>
    intro st
    show (stepSeg p st (silenceErrors f)).2 ++
        runSegFrom p (stepSeg p st (silenceErrors f)).1 (rest.map silenceErrors) = _
    rw [stepSeg_silenceErrors, ih]
    rfl

/-- C8: a classifier error on a frame is fail-open — the frame is decided as
silence, the segmenter step on it is identical to the step on the same frame
read as silence, and over any whole stream, replacing every erroring frame
by silence changes nothing, so the error is never propagated and the stream
is never aborted. -/
theorem classifier_error_fail_open (p : VadParams) (f : AudioFrame)
    (hf : f.vadResult = Except.error ()) :
    frameIsSpeech p f = false ∧
    (∀ st, stepSeg p st f = stepSeg p st { f with vadResult := Except.ok false }) ∧
    (∀ frames, runSegmenter p (frames.map silenceErrors) = runSegmenter p frames) := by
  have hsil : silenceErrors f = { f with vadResult := Except.ok false } := by
    unfold silenceErrors
    rw [hf]
  refine ⟨?_, ?_, ?_⟩
  · unfold frameIsSpeech classifyFrame
    rw [hf]
  · intro st
    rw [← hsil, stepSeg_silenceErrors]
  · intro frames
    unfold runSegmenter
    exact runSegFrom_silenceErrors p frames initSeg

/-- Witness for C8 at a concrete high-energy frame whose classifier fails. -/
theorem classifier_error_fail_open_witness :
    frameIsSpeech { energyThreshold := 100, startFrames := 3, silenceFrames := 5,
                    preBufferFrames := 2, minUtteranceFrames := 4 }
      { energy := 900, vadResult := Except.error () } = false ∧
    stepSeg { energyThreshold := 100, startFrames := 3, silenceFrames := 5,
              preBufferFrames := 2, minUtteranceFrames := 4 }
      initSeg { energy := 900, vadResult := Except.error () } =
      stepSeg { energyThreshold := 100, startFrames := 3, silenceFrames := 5,
                preBufferFrames := 2, minUtteranceFrames := 4 }
        initSeg { energy := 900, vadResult := Except.ok false } ∧
    runSegmenter { energyThreshold := 100, startFrames := 3, silenceFrames := 5,
                   preBufferFrames := 2, minUtteranceFrames := 4 }
      ([{ energy := 900, vadResult := Except.error () }].map silenceErrors) =
      runSegmenter { energyThreshold := 100, startFrames := 3, silenceFrames := 5,
                     preBufferFrames := 2, minUtteranceFrames := 4 }
        [{ energy := 900, vadResult := Except.error () }] := by
  have h := classifier_error_fail_open
    { energyThreshold := 100, startFrames := 3, silenceFrames := 5,
      preBufferFrames := 2, minUtteranceFrames := 4 }
    { energy := 900, vadResult := Except.error () } rfl
  exact ⟨h.1, h.2.1 initSeg, h.2.2 [{ energy := 900, vadResult := Except.error () }]⟩

theorem speakingCount_cancelSpeaking (l : List PlaybackSession) :
    speakingCount (cancelSpeaking l) = 0 := by
  induction l with
  | nil => rfl
  | cons s rest ih =>
    unfold speakingCount cancelSpeaking at ih ⊢
    rw [List.map_cons, List.countP_cons, ih]
    by_cases hs : s.state = PlaybackState.Speaking
    · simp [hs]
    · simp [hs]

theorem speakingCount_promoteToSpeaking (sid : Nat) (l : List PlaybackSession) :
    speakingCount (promoteToSpeaking sid l) ≤ speakingCount l + 1 := by
  induction l with
  | nil => simp [promoteToSpeaking, speakingCount]
  | cons s rest ih =>
    unfold promoteToSpeaking
    by_cases hc : (s.id == sid && s.state == PlaybackState.Pending) = true
    · rw [if_pos hc]
      have hp : s.state = PlaybackState.Pending := by
        simp only [Bool.and_eq_true, beq_iff_eq] at hc
        exact hc.2
      simp only [speakingCount, List.countP_cons] at *
      simp [hp]
    · rw [if_neg hc]
      simp only [speakingCount, List.countP_cons] at *
      omega

theorem speakingCount_completeSpeaking (sid : Nat) (l : List PlaybackSession) :
    speakingCount (completeSpeaking sid l) ≤ speakingCount l := by
  induction l with
  | nil => simp [completeSpeaking, speakingCount]
  | cons s rest ih =>
    unfold completeSpeaking
    by_cases hc : (s.id == sid && s.state == PlaybackState.Speaking) = true
    · rw [if_pos hc]
      simp only [speakingCount, List.countP_cons] at *
      simp
    · rw [if_neg hc]
      simp only [speakingCount, List.countP_cons] at *
      omega

theorem speakingCount_append_pending (l : List PlaybackSession) (sid : Nat) (audio : List Nat) :
    speakingCount (l ++ [{ id := sid, state := PlaybackState.Pending, buffer := audio }]) =
      speakingCount l := by
  simp [speakingCount, List.countP_append]

theorem stepPlayback_speaking_le (st : ControllerState) (e : PlaybackEvent)
    (h : speakingCount st.sessions ≤ 1) :
    speakingCount (stepPlayback st e).sessions ≤ 1 := by
  cases e with
  | submit sid audio =>
    show speakingCount (st.sessions ++ [_]) ≤ 1
    rw [speakingCount_append_pending]
    exact h
  | beginSpeaking sid =>
    show speakingCount (promoteToSpeaking sid (cancelSpeaking st.sessions)) ≤ 1
    have h1 := speakingCount_promoteToSpeaking sid (cancelSpeaking st.sessions)
    rw [speakingCount_cancelSpeaking] at h1
    exact h1
  | cancelSignal =>
    show speakingCount (cancelSpeaking st.sessions) ≤ 1
    rw [speakingCount_cancelSpeaking]
    omega
  | finishPlayback sid =>
    show speakingCount (completeSpeaking sid st.sessions) ≤ 1
    exact le_trans (speakingCount_completeSpeaking sid st.sessions) h

theorem foldl_stepPlayback_speaking_le (events : List PlaybackEvent) :
    ∀ st, speakingCount st.sessions ≤ 1 →
      speakingCount (events.foldl stepPlayback st).sessions ≤ 1 := by
  induction events with
  | nil =>
    intro st h
    exact h
  | cons e rest ih =>
    intro st h
    exact ih (stepPlayback st e) (stepPlayback_speaking_le st e h)

theorem cancelSpeaking_mem (l : List PlaybackSession) (a : PlaybackSession)
    (ha : a ∈ l) (hs : a.state = PlaybackState.Speaking) :
    ({ id := a.id, state := PlaybackState.Cancelled, buffer := [] } : PlaybackSession) ∈
      cancelSpeaking l := by
  unfold cancelSpeaking
  refine List.mem_map.mpr ⟨a, ha, ?_⟩
  simp [hs]

theorem cancelSpeaking_no_speaking (l : List PlaybackSession) (s : PlaybackSession)
    (hs : s ∈ cancelSpeaking l) : s.state ≠ PlaybackState.Speaking := by
  unfold cancelSpeaking at hs
  rcases List.mem_map.mp hs with ⟨x, _, hfx⟩
  by_cases hxs : (x.state == PlaybackState.Speaking) = true
  · rw [if_pos hxs] at hfx
    rw [← hfx]
    simp
  · rw [if_neg hxs] at hfx
    rw [← hfx]
    simpa using hxs

theorem promoteToSpeaking_mem_of_not_pending (sid : Nat) (l : List PlaybackSession)
    (x : PlaybackSession) (hx : x ∈ l) (hp : x.state ≠ PlaybackState.Pending) :
    x ∈ promoteToSpeaking sid l := by
  induction l with
  | nil => cases hx
  | cons s rest ih =>
    unfold promoteToSpeaking
    by_cases hc : (s.id == sid && s.state == PlaybackState.Pending) = true
    · rw [if_pos hc]
      rcases List.mem_cons.mp hx with h | h
      · exfalso
        have hpend : s.state = PlaybackState.Pending := by
          simp only [Bool.and_eq_true, beq_iff_eq] at hc
          exact hc.2
        rw [h] at hp
        exact hp hpend
      · exact List.mem_cons_of_mem _ h
    · rw [if_neg hc]
      rcases List.mem_cons.mp hx with h | h
      · rw [h]
        exact List.mem_cons_self s _
      · exact List.mem_cons_of_mem _ (ih h)

theorem speakingCount_ne_zero (l : List PlaybackSession) (a : PlaybackSession)
    (ha : a ∈ l) (hs : a.state = PlaybackState.Speaking) :
    speakingCount l ≠ 0 := by
  unfold speakingCount
  have hpos : 0 < l.countP (fun s => s.state == PlaybackState.Speaking) :=
    List.countP_pos_iff.mpr ⟨a, ha, by simp [hs]⟩
  omega

/-- C1: at every state reachable by any event sequence, at most one
PlaybackSession is Speaking; and when a request to start a new Speaking
session is processed while a session is Speaking, that existing session is
transitioned to Cancelled (its audio discarded) as part of that very
transition. -/
theorem at_most_one_speaking (events : List PlaybackEvent) (st : ControllerState)
    (sid : Nat) (a : PlaybackSession)
    (ha : a ∈ st.sessions) (hs : a.state = PlaybackState.Speaking) :
    speakingCount (runPlayback events).sessions ≤ 1 ∧
    ({ id := a.id, state := PlaybackState.Cancelled, buffer := [] } : PlaybackSession) ∈
      (stepPlayback st (PlaybackEvent.beginSpeaking sid)).sessions := by
  constructor
  · exact foldl_stepPlayback_speaking_le events initController
      (by simp [initController, speakingCount])
  · show _ ∈ promoteToSpeaking sid (cancelSpeaking st.sessions)
    refine promoteToSpeaking_mem_of_not_pending sid _ _ (cancelSpeaking_mem _ a ha hs) ?_
    simp

/-- Witness for C1: two sessions racing for Speaking; session 1 is Speaking
when session 2 requests to start. -/
theorem at_most_one_speaking_witness :
    speakingCount (runPlayback
      [PlaybackEvent.submit 1 [7], PlaybackEvent.beginSpeaking 1,
       PlaybackEvent.submit 2 [9], PlaybackEvent.beginSpeaking 2]).sessions ≤ 1 ∧
    ({ id := 1, state := PlaybackState.Cancelled, buffer := [] } : PlaybackSession) ∈
      (stepPlayback
        { sessions := [{ id := 1, state := PlaybackState.Speaking, buffer := [7] }],
          outbox := [] }
        (PlaybackEvent.beginSpeaking 2)).sessions :=
  at_most_one_speaking
    [PlaybackEvent.submit 1 [7], PlaybackEvent.beginSpeaking 1,
     PlaybackEvent.submit 2 [9], PlaybackEvent.beginSpeaking 2]
    { sessions := [{ id := 1, state := PlaybackState.Speaking, buffer := [7] }],
      outbox := [] }
    2
    { id := 1, state := PlaybackState.Speaking, buffer := [7] }
    (by decide) (by decide)

/-- C2: when the InterruptionMonitor raises its cancellation signal while a
session is Speaking, that session — whatever audio remains in its buffer —
is transitioned to Cancelled with its remaining unplayed audio discarded, no
session is left Speaking (output stops at this step, not at end of buffer),
and the controller emits an acknowledgment action. -/
theorem cancel_signal_cancels_session (st : ControllerState) (a : PlaybackSession)
    (ha : a ∈ st.sessions) (hs : a.state = PlaybackState.Speaking) :
    ({ id := a.id, state := PlaybackState.Cancelled, buffer := [] } : PlaybackSession) ∈
      (stepPlayback st PlaybackEvent.cancelSignal).sessions ∧
    (∀ s ∈ (stepPlayback st PlaybackEvent.cancelSignal).sessions,
      s.state ≠ PlaybackState.Speaking) ∧
    (stepPlayback st PlaybackEvent.cancelSignal).outbox =
      st.outbox ++ [ActionType.acknowledge] := by
  refine ⟨cancelSpeaking_mem _ a ha hs, ?_, ?_⟩
  · intro s hmem
    exact cancelSpeaking_no_speaking _ s hmem
  · show (if speakingCount st.sessions == 0 then st.outbox
        else st.outbox ++ [ActionType.acknowledge]) = _
    have hne := speakingCount_ne_zero st.sessions a ha hs
    have hbeq : (speakingCount st.sessions == 0) = false := by
      simpa using hne
    rw [hbeq]
    rfl

/-- Witness for C2: a Speaking session with two unplayed audio chunks. -/
theorem cancel_signal_cancels_session_witness :
    ({ id := 1, state := PlaybackState.Cancelled, buffer := [] } : PlaybackSession) ∈
      (stepPlayback
        { sessions := [{ id := 1, state := PlaybackState.Speaking, buffer := [3, 4] }],
          outbox := [] }
        PlaybackEvent.cancelSignal).sessions ∧
    (∀ s ∈ (stepPlayback
        { sessions := [{ id := 1, state := PlaybackState.Speaking, buffer := [3, 4] }],
          outbox := [] }
        PlaybackEvent.cancelSignal).sessions,
      s.state ≠ PlaybackState.Speaking) ∧
    (stepPlayback
        { sessions := [{ id := 1, state := PlaybackState.Speaking, buffer := [3, 4] }],
          outbox := [] }
        PlaybackEvent.cancelSignal).outbox = [] ++ [ActionType.acknowledge] :=
  cancel_signal_cancels_session
    { sessions := [{ id := 1, state := PlaybackState.Speaking, buffer := [3, 4] }],
      outbox := [] }
    { id := 1, state := PlaybackState.Speaking, buffer := [3, 4] }
    (by decide) (by decide)

end SleepAR
